import Mathlib

/-!
Verification development for the berlin-opendata-mcp server.

The Python sources (`src/berlin_opendata_mcp/api_client.py` and
`src/berlin_opendata_mcp/server.py`) are shallowly embedded below.  Pure
formatting functions become Lean functions on typed views of the CKAN JSON
entities; each tool's single network call is replaced by an explicit
`Except PyException _` outcome argument (the parsed response on success, the
raised exception on failure), so a tool body is a total function from its
validated input and the request outcome to the returned text.  Python dicts
built from `extras` lists are modelled with first-insertion-order /
last-value-wins semantics (`pyDict`).  `json.dumps` (standard library,
external to the repository) is modelled as a serialization parameter of the
two MCP resource endpoints.
-/

namespace BerlinMcp

/-- Constant `PORTAL_URL` from `api_client.py`. -/
def PORTAL_URL : String := "https://daten.berlin.de"

/-- The exception values that can reach a tool's `except Exception` boundary:
`httpx.HTTPStatusError` (carrying the response status), `httpx.TimeoutException`,
and any other exception, carried as its type name (`type(e).__name__`) together
with its display text (`str(e)`). -/
inductive PyException where
  | httpStatusError (status : Nat)
  | timeoutException
  | other (typeName : String) (message : String)
deriving Repr, DecidableEq

/-- The `prefix = f"Fehler bei {context}: " if context else "Fehler: "`
assignment of `handle_api_error`. -/
def diagPre (context : String) : String :=
  if context ≠ "" then "Fehler bei " ++ context ++ ": " else "Fehler: "

/-- `handle_api_error` from `api_client.py`: maps a failure and a context string
to the user-facing German diagnostic text. -/
def handle_api_error (e : PyException) (context : String) : String :=
  let pre := diagPre context
  match e with
  | .httpStatusError status =>
      if status = 404 then pre ++ "Ressource nicht gefunden. Bitte ID/Name pruefen."
      else if status = 403 then pre ++ "Zugriff verweigert."
      else if status = 429 then pre ++ "Zu viele Anfragen. Bitte warten."
      else pre ++ "HTTP-Fehler " ++ toString status
  | .timeoutException => pre ++ "Zeitueberschreitung. Bitte erneut versuchen."
  | .other typeName message => pre ++ typeName ++ ": " ++ message

/-- One entry of a CKAN group list attached to a dataset (`{name, title}`);
both keys are read with `dict.get`, hence optional. -/
structure CkanGroup where
  name : Option String
  title : Option String
deriving Repr, DecidableEq

/-- One entry of a CKAN tag list attached to a dataset (`{name, display_name}`). -/
structure CkanTag where
  name : Option String
  display_name : Option String
deriving Repr, DecidableEq

/-- A CKAN resource as read by the formatter (`name`, `format`, `url`, all via
`dict.get`). -/
structure Resource where
  name : Option String
  format : Option String
  url : Option String
deriving Repr, DecidableEq

/-- A CKAN dataset as read by the formatters: every scalar field is accessed
with `dict.get` and so is optional here; list-valued fields default to `[]`.
`extras` is the raw CKAN list of `{key, value}` pairs. -/
structure Dataset where
  title : Option String
  name : Option String
  author : Option String
  notes : Option String
  license_title : Option String
  num_resources : Option Int
  metadata_modified : Option String
  groups : List CkanGroup
  tags : List CkanTag
  extras : List (String × String)
  resources : List Resource
deriving Repr, DecidableEq

/-- One step of building a Python dict from a key/value sequence: an existing
key is overwritten in place, a fresh key is appended. -/
def pyDictInsert (d : List (String × String)) (k v : String) : List (String × String) :=
  if d.any (fun p => p.1 == k) then
    d.map (fun p => if p.1 == k then (k, v) else p)
  else d ++ [(k, v)]

/-- The Python dict comprehension `{e["key"]: e["value"] for e in extras}`:
first-insertion order, last value wins. -/
def pyDict (l : List (String × String)) : List (String × String) :=
  l.foldl (fun d kv => pyDictInsert d kv.1 kv.2) []

/-- Python `d.get(k, dflt)` on an association list. -/
def dictGet (d : List (String × String)) (k dflt : String) : String :=
  match d.lookup k with
  | some v => v
  | none => dflt

/-- Python string slicing `s[:n]`: the first `n` code points. -/
def strTake (s : String) (n : Nat) : String :=
  String.mk (s.data.take n)

/-- Python `s.startswith(t)` (by code points). -/
def pyStartswith (s t : String) : Bool :=
  t.data.isPrefixOf s.data

/-- The `lines` list built by `format_dataset_summary` in `api_client.py`
before the final `"\n".join`. -/
def format_dataset_summary_lines (dataset : Dataset) : List String :=
  let title := dataset.title.getD "Unbekannt"
  let name := dataset.name.getD ""
  let author := dataset.author.getD "Unbekannt"
  let notes := strTake (dataset.notes.getD "") 300
  let license_title := dataset.license_title.getD "Unbekannt"
  let num_resources := dataset.num_resources.getD 0
  let modified := strTake (dataset.metadata_modified.getD "") 10
  let groups := dataset.groups.map (fun g => g.title.getD (g.name.getD ""))
  let tags := dataset.tags.map (fun t => t.display_name.getD (t.name.getD ""))
  let extras := pyDict dataset.extras
  let berlin_type := dictGet extras "berlin_type" ""
  let geo_coverage := dictGet extras "geographical_coverage" ""
  let date_updated := dictGet extras "date_updated" ""
  let url := PORTAL_URL ++ "/datensaetze/" ++ name
  [ "### " ++ title,
    "- **ID**: `" ++ name ++ "`",
    "- **Autor**: " ++ author,
    "- **Lizenz**: " ++ license_title,
    "- **Ressourcen**: " ++ toString num_resources,
    "- **Letzte Aenderung**: " ++ modified ]
  ++ (if berlin_type ≠ "" then ["- **Typ**: " ++ berlin_type] else [])
  ++ (if date_updated ≠ "" then ["- **Daten aktualisiert**: " ++ date_updated] else [])
  ++ (if geo_coverage ≠ "" then ["- **Raeumliche Abdeckung**: " ++ geo_coverage] else [])
  ++ (if groups ≠ [] then ["- **Kategorien**: " ++ String.intercalate ", " groups] else [])
  ++ (if tags ≠ [] then ["- **Tags**: " ++ String.intercalate ", " (tags.take 10)] else [])
  ++ (if notes ≠ "" then ["- **Beschreibung**: " ++ notes ++ "..."] else [])
  ++ ["- **URL**: " ++ url]

/-- `format_dataset_summary` from `api_client.py`. -/
def format_dataset_summary (dataset : Dataset) : String :=
  String.intercalate "\n" (format_dataset_summary_lines dataset)

/-- `format_resource_info` from `api_client.py`. -/
def format_resource_info (resource : Resource) : String :=
  "  - **" ++ resource.name.getD "Unbenannt" ++ "** (" ++ resource.format.getD "?"
    ++ ") – " ++ resource.url.getD "Keine URL"

/-- The `error` object of a CKAN envelope; only its `message` key is read. -/
structure CkanError where
  message : Option String
deriving Repr, DecidableEq

/-- The parsed JSON envelope returned by the catalog API, as inspected by
`ckan_request`: `data.get("success")`, `data.get("error", {}).get("message", …)`
and `data["result"]`. -/
structure CkanEnvelope (α : Type) where
  success : Option Bool
  error : Option CkanError
  result : Option α
deriving Repr, DecidableEq

/-- The envelope-handling tail of `ckan_request` in `api_client.py` (the HTTP
transport up to the parsed JSON body is external): a falsy `success` raises
`RuntimeError("CKAN API error: " + message-or-placeholder)`, a truthy `success`
returns `data["result"]` (a missing `result` key would raise `KeyError`). -/
def ckan_request {α : Type} (data : CkanEnvelope α) : Except PyException α :=
  if data.success = some true then
    match data.result with
    | some r => Except.ok r
    | none => Except.error (.other "KeyError" "\x27result\x27")
  else
    Except.error (.other "RuntimeError"
      ("CKAN API error: " ++ ((data.error.bind CkanError.message).getD "Unknown CKAN error")))

/-- `SearchDatasetsInput` from `server.py` (validation `1 ≤ rows ≤ 50`,
`offset ≥ 0` is performed by the runtime before invocation). -/
structure SearchDatasetsInput where
  query : String
  rows : Nat
  offset : Nat
  sort : Option String
  filter_group : Option String
deriving Repr, DecidableEq

/-- The fields of a `package_search` result read by the tools:
`result["count"]` and `result["results"]`. -/
structure PackageSearchResult where
  count : Nat
  results : List Dataset
deriving Repr, DecidableEq

/-- The `lines` list built by `berlin_search_datasets` in the non-empty case. -/
def berlin_search_datasets_lines (params : SearchDatasetsInput) (total : Nat)
    (datasets : List Dataset) : List String :=
  [ "## Suchergebnis: " ++ toString total ++ " Datensaetze fuer \x27" ++ params.query ++ "\x27",
    "Zeige " ++ toString datasets.length ++ " von " ++ toString total
      ++ " (Offset: " ++ toString params.offset ++ ")\n" ]
  ++ datasets.flatMap (fun ds => [format_dataset_summary ds, ""])
  ++ (if total > params.offset + datasets.length then
        ["*→ Weitere Ergebnisse mit offset=" ++ toString (params.offset + datasets.length) ++ "*"]
      else [])

/-- `berlin_search_datasets` from `server.py`, as a function of the validated
input and the outcome of its `package_search` request. -/
def berlin_search_datasets (params : SearchDatasetsInput)
    (outcome : Except PyException PackageSearchResult) : String :=
  match outcome with
  | .error e => handle_api_error e "Datensatzsuche"
  | .ok result =>
      if result.results = [] then
        "Keine Datensaetze gefunden fuer \x27" ++ params.query ++ "\x27."
      else
        String.intercalate "\n" (berlin_search_datasets_lines params result.count result.results)

/-- `GetDatasetInput` from `server.py`. -/
structure GetDatasetInput where
  dataset_id : String
deriving Repr, DecidableEq

/-- The `lines` list built by `berlin_get_dataset` on a successful
`package_show` response. -/
def berlin_get_dataset_lines (result : Dataset) : List String :=
  let extras := pyDict result.extras
  [format_dataset_summary result, "\n#### Ressourcen / Downloads\n"]
  ++ result.resources.map format_resource_info
  ++ (if extras ≠ [] then
        "\n#### Zusaetzliche Metadaten" ::
          ((extras.filter (fun kv => !(pyStartswith kv.1 "harvest"))).map
            (fun kv => "- **" ++ kv.1 ++ "**: " ++ kv.2))
      else [])

/-- `berlin_get_dataset` from `server.py`. -/
def berlin_get_dataset (params : GetDatasetInput)
    (outcome : Except PyException Dataset) : String :=
  match outcome with
  | .error e => handle_api_error e "Datensatz-Details"
  | .ok result => String.intercalate "\n" (berlin_get_dataset_lines result)

/-- `ListGroupInput` from `server.py`. -/
structure ListGroupInput where
  group_id : Option String
deriving Repr, DecidableEq

/-- One `packages` entry of a `group_show` response (`ds['title']`,
`ds['name']` are indexed, hence mandatory). -/
structure GroupPackage where
  title : String
  name : String
deriving Repr, DecidableEq

/-- The fields of a `group_show` response read by `berlin_list_categories`. -/
structure GroupShowResult where
  title : String
  package_count : Option Int
  packages : List GroupPackage
deriving Repr, DecidableEq

/-- One entry of a `group_list(all_fields=True)` response. -/
structure GroupListItem where
  title : String
  name : String
  package_count : Option Int
deriving Repr, DecidableEq

/-- `berlin_list_categories` from `server.py`.  The branch on a truthy
`group_id` decides which of the two requests is issued; the corresponding
outcome argument models that request's result. -/
def berlin_list_categories (params : ListGroupInput)
    (showOutcome : Except PyException GroupShowResult)
    (listOutcome : Except PyException (List GroupListItem)) : String :=
  if params.group_id.getD "" ≠ "" then
    match showOutcome with
    | .error e => handle_api_error e "Kategorien"
    | .ok result =>
        String.intercalate "\n"
          (["## Kategorie: " ++ result.title,
            "**Datensaetze**: " ++ toString (result.package_count.getD 0) ++ "\n"]
           ++ result.packages.map (fun ds => "- **" ++ ds.title ++ "** (`" ++ ds.name ++ "`)"))
  else
    match listOutcome with
    | .error e => handle_api_error e "Kategorien"
    | .ok result =>
        String.intercalate "\n"
          ("## Datenkategorien des Landes Berlin\n" ::
           result.map (fun group =>
             "- **" ++ group.title ++ "** (`" ++ group.name ++ "`) – "
               ++ toString (group.package_count.getD 0) ++ " Datensaetze"))

/-- `TagSearchInput` from `server.py` (validation `1 ≤ limit ≤ 100` is done by
the runtime). -/
structure TagSearchInput where
  query : Option String
  limit : Nat
deriving Repr, DecidableEq

/-- Python string interpolation of an `Optional[str]`: `None` prints as
`"None"`. -/
def pyStrOptional (o : Option String) : String :=
  match o with
  | some s => s
  | none => "None"

/-- The `lines` list built by `berlin_list_tags` for the already-truncated tag
list `tags = result[:limit]`. -/
def berlin_list_tags_lines (tags : List String) : List String :=
  ("## Tags (" ++ toString tags.length ++ " Ergebnisse)\n") ::
  tags.map (fun tag => "- `" ++ tag ++ "`")
  ++ ["\n*Tipp: Nutze `berlin_search_datasets` mit `filter_group` oder Solr-Query `tags:tagname`*"]

/-- `berlin_list_tags` from `server.py`. -/
def berlin_list_tags (params : TagSearchInput)
    (outcome : Except PyException (List String)) : String :=
  match outcome with
  | .error e => handle_api_error e "Tag-Suche"
  | .ok result =>
      if result = [] then
        "Keine Tags gefunden fuer \x27" ++ pyStrOptional params.query ++ "\x27."
      else
        String.intercalate "\n" (berlin_list_tags_lines (result.take params.limit))

/-- `AnalyzeDatasetInput` from `server.py`. -/
structure AnalyzeDatasetInput where
  query : String
  max_datasets : Nat
  include_structure : Bool
  include_freshness : Bool
deriving Repr, DecidableEq

/-- Insertion into an ascending list of strings (code-point order, as Python
`sorted` on `str`). -/
def insertAsc (s : String) : List String → List String
  | [] => [s]
  | y :: ys => if s ≤ y then s :: y :: ys else y :: insertAsc s ys

/-- Ascending sort of strings. -/
def sortStrings : List String → List String
  | [] => []
  | x :: xs => insertAsc x (sortStrings xs)

/-- Python `sorted(set(l))` on strings: deduplicate, then sort ascending. -/
def sortedUnique (l : List String) : List String :=
  sortStrings l.eraseDups

/-- The per-dataset block appended by the body of the
`for i, ds in enumerate(datasets, 1)` loop of `berlin_analyze_datasets`. -/
def berlin_analyze_block (params : AnalyzeDatasetInput) (i : Nat) (ds : Dataset) : List String :=
  let name := ds.name.getD ""
  let title := ds.title.getD "?"
  let modified := strTake (ds.metadata_modified.getD "?") 10
  let resources := ds.resources
  let formats := sortedUnique (resources.map (fun r => r.format.getD "?"))
  let extras := pyDict ds.extras
  let date_updated := dictGet extras "date_updated" ""
  let geo_coverage := dictGet extras "geographical_coverage" ""
  [ "### " ++ toString i ++ ". " ++ title,
    "- **ID**: `" ++ name ++ "`",
    "- **Formate**: " ++ String.intercalate ", " formats,
    "- **Ressourcen**: " ++ toString resources.length ]
  ++ (if params.include_freshness then
        ("- **Letzte Aenderung**: " ++ modified) ::
          (if date_updated ≠ "" then ["- **Daten aktualisiert**: " ++ date_updated] else [])
      else [])
  ++ (if params.include_structure then
        resources.map (fun res =>
          "  - " ++ res.name.getD "Unbenannt" ++ " (" ++ res.format.getD "?" ++ "): "
            ++ res.url.getD "")
      else [])
  ++ (if geo_coverage ≠ "" then ["- **Raeumliche Abdeckung**: " ++ geo_coverage] else [])
  ++ ["- **URL**: " ++ PORTAL_URL ++ "/datensaetze/" ++ name ++ "\n"]

/-- The loop of `berlin_analyze_datasets`, with `i` starting at the given
index (the source enumerates from 1). -/
def berlin_analyze_blocks (params : AnalyzeDatasetInput) : Nat → List Dataset → List String
  | _, [] => []
  | i, ds :: rest => berlin_analyze_block params i ds ++ berlin_analyze_blocks params (i + 1) rest

/-- The `lines` list built by `berlin_analyze_datasets` in the non-empty case. -/
def berlin_analyze_datasets_lines (params : AnalyzeDatasetInput) (total : Nat)
    (datasets : List Dataset) : List String :=
  [ "## Analyse: \x27" ++ params.query ++ "\x27",
    "**" ++ toString total ++ " Datensaetze gefunden**, Top " ++ toString datasets.length
      ++ " analysiert:\n" ]
  ++ berlin_analyze_blocks params 1 datasets

/-- `berlin_analyze_datasets` from `server.py`. -/
def berlin_analyze_datasets (params : AnalyzeDatasetInput)
    (outcome : Except PyException PackageSearchResult) : String :=
  match outcome with
  | .error e => handle_api_error e "Datensatz-Analyse"
  | .ok result =>
      if result.results = [] then
        "Keine Datensaetze gefunden fuer \x27" ++ params.query ++ "\x27."
      else
        String.intercalate "\n" (berlin_analyze_datasets_lines params result.count result.results)

/-- One facet item (`display_name` / `name` / `count`, all via `item.get`). -/
structure FacetItem where
  name : Option String
  display_name : Option String
  count : Option Int
deriving Repr, DecidableEq

/-- A facet value in the response: a dict carrying an optional `items` list,
a bare list of items, or any other JSON value. -/
inductive FacetVal where
  | dict (items : Option (List FacetItem))
  | list (items : List FacetItem)
  | scalar
deriving Repr, DecidableEq

/-- The item extraction of `berlin_catalog_stats`: a dict yields
`x.get("items", [])`, a list yields itself, anything else yields `[]`. -/
def facetItems : FacetVal → List FacetItem
  | .dict items => items.getD []
  | .list items => items
  | .scalar => []

/-- `item.get("count", 0)`. -/
def itemCount (x : FacetItem) : Int :=
  x.count.getD 0

/-- `item.get("display_name", item.get("name", "?"))`. -/
def facetLabel (item : FacetItem) : String :=
  item.display_name.getD (item.name.getD "?")

/-- Stable insertion for a descending sort by count (Python
`sorted(key=count, reverse=True)` keeps equal-count items in input order). -/
def insertByCountDesc (x : FacetItem) : List FacetItem → List FacetItem
  | [] => [x]
  | y :: ys => if itemCount x ≥ itemCount y then x :: y :: ys else y :: insertByCountDesc x ys

/-- Stable descending sort by count. -/
def sortByCountDesc : List FacetItem → List FacetItem
  | [] => []
  | x :: xs => insertByCountDesc x (sortByCountDesc xs)

/-- The fields of the zero-row `package_search` response read by
`berlin_catalog_stats`: `result["count"]` and
`result.get("search_facets", result.get("facets", {}))`. -/
structure StatsResult where
  count : Nat
  search_facets : Option (List (String × FacetVal))
  facets : Option (List (String × FacetVal))
deriving Repr, DecidableEq

/-- The `lines` list built by `berlin_catalog_stats` on success: fixed header,
then the `groups` facet (sorted descending by count) if present, then the
`res_format` facet (sorted descending, first 10) if present.  The `tags`
facet, though requested, is never rendered by the source. -/
def berlin_catalog_stats_lines (result : StatsResult) : List String :=
  let total := result.count
  let facets := result.search_facets.getD (result.facets.getD [])
  [ "## Open Data Katalog – Land Berlin",
    "**Gesamtzahl Datensaetze**: " ++ toString total ++ "\n",
    "**Portal**: " ++ PORTAL_URL,
    "**Lizenzen**: CC0, CC-BY, Datenlizenz Deutschland (Zero/Namensnennung), GeoNutzV u.a.\n" ]
  ++ (match facets.lookup "groups" with
      | some groups =>
          "### Kategorien" ::
            (sortByCountDesc (facetItems groups)).map (fun item =>
              "- **" ++ facetLabel item ++ "**: " ++ toString (itemCount item))
      | none => [])
  ++ (match facets.lookup "res_format" with
      | some fmts =>
          "\n### Haeufigste Formate" ::
            ((sortByCountDesc (facetItems fmts)).take 10).map (fun item =>
              "- **" ++ facetLabel item ++ "**: " ++ toString (itemCount item))
      | none => [])

/-- `berlin_catalog_stats` from `server.py`. -/
def berlin_catalog_stats (outcome : Except PyException StatsResult) : String :=
  match outcome with
  | .error e => handle_api_error e "Katalog-Statistiken"
  | .ok result => String.intercalate "\n" (berlin_catalog_stats_lines result)

/-- MCP resource `berlin://dataset/{name}` (`get_dataset_resource` in
`server.py`): no `try`, so a failed request propagates.  `json.dumps` is the
`dumps` parameter. -/
def get_dataset_resource (dumps : Dataset → String)
    (outcome : Except PyException Dataset) : Except PyException String :=
  match outcome with
  | .error e => Except.error e
  | .ok result => Except.ok (dumps result)

/-- MCP resource `berlin://category/{group_id}` (`get_category_resource` in
`server.py`): no `try`, so a failed request propagates. -/
def get_category_resource (dumps : GroupShowResult → String)
    (outcome : Except PyException GroupShowResult) : Except PyException String :=
  match outcome with
  | .error e => Except.error e
  | .ok result => Except.ok (dumps result)

/-- Whether an operation outcome delivered text to the caller. -/
def returnsText {α : Type} (r : Except PyException α) : Bool :=
  match r with
  | .ok _ => true
  | .error _ => false

/-- Substring test on character lists. -/
def charsContain (pat : List Char) : List Char → Bool
  | [] => pat.isPrefixOf []
  | c :: cs => pat.isPrefixOf (c :: cs) || charsContain pat cs

/-- Substring test on strings (used only in theorem statements). -/
def strContains (s pat : String) : Bool :=
  charsContain pat.data s.data

/-- A line of rendered output that opens a dataset block (`### …`). -/
def isDatasetBlockStart (l : String) : Bool :=
  "### ".data.isPrefixOf l.data

/-- A line of `berlin_list_tags` output that is a single tag entry. -/
def isTagEntryLine (l : String) : Bool :=
  "- `".data.isPrefixOf l.data

/-- A dataset whose JSON object carries none of the summarised keys. -/
def minimalDataset : Dataset :=
  ⟨none, none, none, none, none, none, none, [], [], [], []⟩

/-- A bare dataset with only a title and a name, for search scenarios. -/
def dsE (k : String) : Dataset :=
  ⟨some ("Titel " ++ k), some k, none, none, none, none, none, [], [], [], []⟩

/-- The input of the spec's search scenario: query `Einwohner`, `rows=3`. -/
def searchScenarioInput : SearchDatasetsInput :=
  ⟨"Einwohner", 3, 0, none, none⟩

/-- The lines rendered in the spec's search scenario: the catalog reports
`count=120` and returns three datasets. -/
def searchScenarioLines : List String :=
  berlin_search_datasets_lines searchScenarioInput 120 [dsE "e1", dsE "e2", dsE "e3"]

/-- A zero-row search response carrying all three requested facet dimensions
(`groups`, `res_format` and `tags`), each with items. -/
def statsFacetResponse : StatsResult :=
  ⟨42,
   some [("groups", FacetVal.list
            [⟨some "bildung", some "Bildung", some 5⟩, ⟨some "umwelt", some "Umwelt", some 8⟩]),
         ("res_format", FacetVal.list
            [⟨some "CSV", some "CSV", some 7⟩, ⟨some "PDF", some "PDF", some 11⟩]),
         ("tags", FacetVal.list [⟨some "kita", some "kita", some 9⟩])],
   none⟩

/-- A dataset whose extras carry a geographic coverage. -/
def geoDs1 : Dataset :=
  ⟨some "A-Titel", some "ds-a", none, none, none, none, some "2024-01-01T00:00:00",
   [], [], [("geographical_coverage", "Berlin")], []⟩

/-- A dataset without extras (in particular without geographic coverage). -/
def geoDs2 : Dataset :=
  ⟨some "B-Titel", some "ds-b", none, none, none, none, some "2024-01-02T00:00:00",
   [], [], [], []⟩

/-- The analyze parameters used in the geo-coverage scenario. -/
def analyzeScenarioParams : AnalyzeDatasetInput :=
  ⟨"Verkehr", 5, true, true⟩

/-- A dataset whose extras are non-empty but all harvest-prefixed. -/
def harvestDs : Dataset :=
  ⟨some "T", some "t", none, none, none, none, none, [], [],
   [("harvest_url", "u"), ("harvest_source_id", "s")], []⟩

/-- C6: on a parsed envelope with `success` false, the catalog client fails
with the typed error carrying the server-supplied message (or the placeholder
`Unknown CKAN error` when absent); with `success` true it returns the `result`
field unmodified. -/
theorem ckan_request_envelope_spec {α : Type} (data : CkanEnvelope α) :
    (data.success = some false →
       ckan_request data = Except.error (.other "RuntimeError"
         ("CKAN API error: " ++ ((data.error.bind CkanError.message).getD "Unknown CKAN error"))))
  ∧ (∀ r : α, data.success = some true → data.result = some r →
       ckan_request data = Except.ok r) := by
  constructor
  · intro h
    simp [ckan_request, h]
  · intro r h1 h2
    simp [ckan_request, h1, h2]

/-- Witness for C6 at two concrete envelopes: a failing one with message
`boom`, a succeeding one with result `7`. -/
theorem ckan_request_envelope_spec_witness :
    ckan_request (⟨some false, some ⟨some "boom"⟩, some 3⟩ : CkanEnvelope Nat)
        = Except.error (.other "RuntimeError" "CKAN API error: boom")
  ∧ ckan_request (⟨some true, none, some 7⟩ : CkanEnvelope Nat) = Except.ok 7 :=
  ⟨(ckan_request_envelope_spec (⟨some false, some ⟨some "boom"⟩, some 3⟩ : CkanEnvelope Nat)).1 rfl,
   (ckan_request_envelope_spec (⟨some true, none, some 7⟩ : CkanEnvelope Nat)).2 7 rfl rfl⟩

/-- C7: the Error Translator is a total function to displayable text and maps
each failure kind as specified: HTTP 404 to the not-found diagnostic, 403 to
access-denied, 429 to rate-limited, any other status to the generic line
carrying the status code, a timeout to the retry diagnostic, and any other
failure to the prefix plus the failure-kind name and detail message. -/
theorem handle_api_error_spec (context typeName detail : String) (status : Nat)
    (h404 : status ≠ 404) (h403 : status ≠ 403) (h429 : status ≠ 429) :
    handle_api_error (.httpStatusError 404) context
        = diagPre context ++ "Ressource nicht gefunden. Bitte ID/Name pruefen."
  ∧ handle_api_error (.httpStatusError 403) context = diagPre context ++ "Zugriff verweigert."
  ∧ handle_api_error (.httpStatusError 429) context
        = diagPre context ++ "Zu viele Anfragen. Bitte warten."
  ∧ handle_api_error (.httpStatusError status) context
        = diagPre context ++ "HTTP-Fehler " ++ toString status
  ∧ handle_api_error .timeoutException context
        = diagPre context ++ "Zeitueberschreitung. Bitte erneut versuchen."
  ∧ handle_api_error (.other typeName detail) context
        = diagPre context ++ typeName ++ ": " ++ detail := by
  refine ⟨rfl, rfl, rfl, ?_, rfl, rfl⟩
  simp [handle_api_error, h404, h403, h429]

/-- Witness for C7 at context `Datensatzsuche`, status 500, failure kind
`ValueError`. -/
theorem handle_api_error_spec_witness :
    ((500 : Nat) ≠ 404 ∧ (500 : Nat) ≠ 403 ∧ (500 : Nat) ≠ 429)
  ∧ handle_api_error (.httpStatusError 500) "Datensatzsuche"
        = diagPre "Datensatzsuche" ++ "HTTP-Fehler " ++ toString (500 : Nat) :=
  ⟨⟨by decide, by decide, by decide⟩,
   (handle_api_error_spec "Datensatzsuche" "ValueError" "bad" 500
      (by decide) (by decide) (by decide)).2.2.2.1⟩

/-- C1 counterexample: a valid invocation whose response has `count = 120` and
an empty results list yields the fixed no-results message, which does not
contain the total match count `120`. -/
theorem search_no_results_counterexample :
    berlin_search_datasets ⟨"Einwohner", 10, 0, none, none⟩ (Except.ok ⟨120, []⟩)
        = "Keine Datensaetze gefunden fuer \x27Einwohner\x27."
  ∧ strContains
      (berlin_search_datasets ⟨"Einwohner", 10, 0, none, none⟩ (Except.ok ⟨120, []⟩))
      "120" = false :=
  ⟨by decide, by decide⟩

/-- C1 amended: on a response with an empty results list, the search tool
returns the fixed message naming only the query — no total count and no
dataset blocks. -/
theorem search_empty_results_message (params : SearchDatasetsInput) (total : Nat) :
    berlin_search_datasets params (Except.ok ⟨total, []⟩)
      = "Keine Datensaetze gefunden fuer \x27" ++ params.query ++ "\x27." :=
  rfl

/-- C2 counterexample: the `berlin://dataset/{name}` resource endpoint has no
exception boundary — a timeout propagates instead of being translated to a
diagnostic string. -/
theorem resource_error_propagation_counterexample :
    get_dataset_resource (fun _ => "") (Except.error PyException.timeoutException)
        = Except.error PyException.timeoutException
  ∧ returnsText
      (get_dataset_resource (fun _ => "") (Except.error PyException.timeoutException)) = false :=
  ⟨rfl, rfl⟩

/-- C2 amended: each of the six tool operations catches every failure at its
outermost boundary and returns the Error Translator's diagnostic with its own
context string; the two MCP resource endpoints propagate the failure instead. -/
theorem operations_error_translation (e : PyException)
    (p1 : SearchDatasetsInput) (p2 : GetDatasetInput) (p3 : ListGroupInput)
    (p4 : TagSearchInput) (p5 : AnalyzeDatasetInput)
    (dumpDataset : Dataset → String) (dumpGroup : GroupShowResult → String) :
    berlin_search_datasets p1 (Except.error e) = handle_api_error e "Datensatzsuche"
  ∧ berlin_get_dataset p2 (Except.error e) = handle_api_error e "Datensatz-Details"
  ∧ berlin_list_categories p3 (Except.error e) (Except.error e)
        = handle_api_error e "Kategorien"
  ∧ berlin_list_tags p4 (Except.error e) = handle_api_error e "Tag-Suche"
  ∧ berlin_analyze_datasets p5 (Except.error e) = handle_api_error e "Datensatz-Analyse"
  ∧ berlin_catalog_stats (Except.error e) = handle_api_error e "Katalog-Statistiken"
  ∧ get_dataset_resource dumpDataset (Except.error e) = Except.error e
  ∧ get_category_resource dumpGroup (Except.error e) = Except.error e := by
  refine ⟨rfl, rfl, ?_, rfl, rfl, rfl, rfl, rfl⟩
  by_cases h : p3.group_id.getD "" ≠ "" <;> simp [berlin_list_categories, h]

/-- C3 counterexample: the dataset with no optional content renders to seven
lines (a title heading, five metadata lines, the URL line), not to the six
lines that "exactly the five mandatory lines plus the URL line" would give. -/
theorem format_summary_minimal_counterexample :
    format_dataset_summary_lines minimalDataset
        = ["### Unbekannt", "- **ID**: ``", "- **Autor**: Unbekannt", "- **Lizenz**: Unbekannt",
           "- **Ressourcen**: 0", "- **Letzte Aenderung**: ",
           "- **URL**: https://daten.berlin.de/datensaetze/"]
  ∧ (format_dataset_summary_lines minimalDataset).length ≠ 6 :=
  ⟨by decide, by decide⟩

/-- C3 amended: a dataset with empty extras, groups and tags and absent notes
renders exactly the title heading, the five mandatory metadata lines and the
final portal-URL line — seven lines, no conditional lines in between. -/
theorem format_summary_no_optional_lines (title name author lic mod : String) (n : Int) :
    format_dataset_summary_lines
        ⟨some title, some name, some author, none, some lic, some n, some mod, [], [], [], []⟩
      = ["### " ++ title,
         "- **ID**: `" ++ name ++ "`",
         "- **Autor**: " ++ author,
         "- **Lizenz**: " ++ lic,
         "- **Ressourcen**: " ++ toString n,
         "- **Letzte Aenderung**: " ++ strTake mod 10,
         "- **URL**: " ++ (PORTAL_URL ++ "/datensaetze/" ++ name)] :=
  rfl

set_option maxRecDepth 4000

/-- C10: when the extras mapping is non-empty but every key is
harvest-prefixed, the get-by-id lines carry the extra-metadata section header
followed by zero key/value lines. -/
theorem get_dataset_harvest_extras_spec (ds : Dataset)
    (h1 : pyDict ds.extras ≠ [])
    (h2 : ∀ kv ∈ pyDict ds.extras, pyStartswith kv.1 "harvest" = true) :
    berlin_get_dataset_lines ds
      = [format_dataset_summary ds, "\n#### Ressourcen / Downloads\n"]
        ++ ds.resources.map format_resource_info
        ++ ["\n#### Zusaetzliche Metadaten"] := by
  have hf : (pyDict ds.extras).filter (fun kv => !(pyStartswith kv.1 "harvest")) = [] := by
    rw [List.filter_eq_nil_iff]
    intro kv hkv
    simp [h2 kv hkv]
  simp [berlin_get_dataset_lines, h1, hf]

/-- Witness for C10 at a dataset with two harvest-prefixed extras. -/
theorem get_dataset_harvest_extras_spec_witness :
    pyDict harvestDs.extras ≠ []
  ∧ berlin_get_dataset_lines harvestDs
      = [format_dataset_summary harvestDs, "\n#### Ressourcen / Downloads\n"]
        ++ harvestDs.resources.map format_resource_info
        ++ ["\n#### Zusaetzliche Metadaten"] :=
  ⟨by decide, get_dataset_harvest_extras_spec harvestDs (by decide) (by decide)⟩

/-- The fixed header of the tag listing is not a tag entry. -/
theorem isTagEntryLine_header (n : Nat) :
    isTagEntryLine ("## Tags (" ++ toString n ++ " Ergebnisse)\n") = false :=
  rfl

/-- The fixed tip line of the tag listing is not a tag entry. -/
theorem isTagEntryLine_tip :
    isTagEntryLine
      "\n*Tipp: Nutze `berlin_search_datasets` mit `filter_group` oder Solr-Query `tags:tagname`*"
      = false :=
  rfl

/-- Every rendered tag line is a tag entry. -/
theorem isTagEntryLine_tag (tag : String) : isTagEntryLine ("- `" ++ tag ++ "`") = true := by
  simp [isTagEntryLine, String.data_append, List.append_assoc, List.isPrefixOf_iff_prefix]

/-- The tag listing contains exactly one tag entry per listed tag. -/
theorem list_tags_lines_entry_count (tags : List String) :
    (berlin_list_tags_lines tags).countP isTagEntryLine = tags.length := by
  simp [berlin_list_tags_lines, List.countP_cons, List.countP_append, List.countP_map,
        Function.comp_def, isTagEntryLine_tag, isTagEntryLine_tip, isTagEntryLine_header,
        List.countP_true]

/-- C8: for any limit `k` with `1 ≤ k ≤ 100` and any tag list the catalog
returns, the list-tags output renders the first `k` tags only: it contains
`min k n` tag entries, hence never more than `k`. -/
theorem list_tags_limit_spec (params : TagSearchInput) (result : List String)
    (h1 : 1 ≤ params.limit) (h2 : params.limit ≤ 100) (hres : result ≠ []) :
    berlin_list_tags params (Except.ok result)
        = String.intercalate "\n" (berlin_list_tags_lines (result.take params.limit))
  ∧ (berlin_list_tags_lines (result.take params.limit)).countP isTagEntryLine
        = min params.limit result.length
  ∧ (berlin_list_tags_lines (result.take params.limit)).countP isTagEntryLine
        ≤ params.limit := by
  refine ⟨by simp [berlin_list_tags, hres], ?_, ?_⟩
  · rw [list_tags_lines_entry_count, List.length_take]
  · rw [list_tags_lines_entry_count, List.length_take]
    exact Nat.min_le_left _ _

/-- Witness for C8 at limit 2 and a three-tag catalog response. -/
theorem list_tags_limit_spec_witness :
    ((1 : Nat) ≤ 2 ∧ (2 : Nat) ≤ 100 ∧ (["a", "b", "c"] : List String) ≠ [])
  ∧ (berlin_list_tags_lines ((["a", "b", "c"] : List String).take 2)).countP isTagEntryLine ≤ 2 :=
  ⟨⟨by decide, by decide, by decide⟩,
   (list_tags_limit_spec ⟨some "q", 2⟩ ["a", "b", "c"] (by decide) (by decide) (by decide)).2.2⟩

/-- C4: on a facet response carrying all three requested dimensions, the
rendered stats list the total, the category items and the format items sorted
by descending count — but the tags facet items appear nowhere in the output,
although the dimension is present in the response. -/
theorem catalog_stats_omits_tags_facet :
    (statsFacetResponse.search_facets.getD []).lookup "tags"
        = some (FacetVal.list [⟨some "kita", some "kita", some 9⟩])
  ∧ berlin_catalog_stats_lines statsFacetResponse
        = ["## Open Data Katalog – Land Berlin",
           "**Gesamtzahl Datensaetze**: 42\n",
           "**Portal**: https://daten.berlin.de",
           "**Lizenzen**: CC0, CC-BY, Datenlizenz Deutschland (Zero/Namensnennung), GeoNutzV u.a.\n",
           "### Kategorien", "- **Umwelt**: 8", "- **Bildung**: 5",
           "\n### Haeufigste Formate", "- **PDF**: 11", "- **CSV**: 7"]
  ∧ strContains (berlin_catalog_stats (Except.ok statsFacetResponse)) "kita" = false
  ∧ strContains (berlin_catalog_stats (Except.ok statsFacetResponse)) "Umwelt" = true
  ∧ strContains (berlin_catalog_stats (Except.ok statsFacetResponse)) "CSV" = true
  ∧ strContains (berlin_catalog_stats (Except.ok statsFacetResponse)) "42" = true :=
  ⟨by decide, by decide, by decide, by decide, by decide, by decide⟩

/-- C5 counterexample: with two analyzed datasets, of which only the first
carries a geographic-coverage extra and the last carries none, the rendered
output contains exactly one geo-coverage line and it belongs to the first
dataset's block — so the line is not produced from the last-iterated dataset's
extras. -/
theorem analyze_geo_last_dataset_counterexample :
    (berlin_analyze_datasets_lines analyzeScenarioParams 2 [geoDs1, geoDs2]).countP
        (fun l => l == "- **Raeumliche Abdeckung**: Berlin") = 1
  ∧ "- **Raeumliche Abdeckung**: Berlin" ∈ berlin_analyze_block analyzeScenarioParams 1 geoDs1
  ∧ dictGet (pyDict geoDs2.extras) "geographical_coverage" "" = "" :=
  ⟨by decide, by decide, by decide⟩

/-- A dataset with a non-empty geo-coverage extra contributes a geo line to
its own block. -/
theorem geo_mem_block (params : AnalyzeDatasetInput) (i : Nat) (ds : Dataset)
    (hgeo : dictGet (pyDict ds.extras) "geographical_coverage" "" ≠ "") :
    ("- **Raeumliche Abdeckung**: " ++ dictGet (pyDict ds.extras) "geographical_coverage" "")
      ∈ berlin_analyze_block params i ds := by
  simp [berlin_analyze_block, hgeo]

/-- The geo line of any analyzed dataset appears in the concatenated loop
output, wherever the dataset occurs. -/
theorem geo_mem_blocks (params : AnalyzeDatasetInput) (ds : Dataset)
    (hgeo : dictGet (pyDict ds.extras) "geographical_coverage" "" ≠ "")
    (datasets : List Dataset) (hm : ds ∈ datasets) (i : Nat) :
    ("- **Raeumliche Abdeckung**: " ++ dictGet (pyDict ds.extras) "geographical_coverage" "")
      ∈ berlin_analyze_blocks params i datasets := by
  induction datasets generalizing i with
  | nil => cases hm
  | cons d rest ih =>
    simp only [berlin_analyze_blocks]
    rcases List.mem_cons.mp hm with hEq | hMem
    · subst hEq
      exact List.mem_append_left _ (geo_mem_block params i ds hgeo)
    · exact List.mem_append_right _ (ih hMem (i + 1))

/-- C5 amended: the analyze operation appends the geo-coverage line
per-dataset, from each analyzed dataset's own extras. -/
theorem analyze_geo_per_dataset (params : AnalyzeDatasetInput) (total : Nat)
    (datasets : List Dataset) (ds : Dataset) (hm : ds ∈ datasets)
    (hgeo : dictGet (pyDict ds.extras) "geographical_coverage" "" ≠ "") :
    ("- **Raeumliche Abdeckung**: " ++ dictGet (pyDict ds.extras) "geographical_coverage" "")
      ∈ berlin_analyze_datasets_lines params total datasets := by
  unfold berlin_analyze_datasets_lines
  exact List.mem_append_right _ (geo_mem_blocks params ds hgeo datasets hm 1)

/-- Witness for C5 amended: the first dataset's geo line is in the output. -/
theorem analyze_geo_per_dataset_witness :
    geoDs1 ∈ [geoDs1, geoDs2]
  ∧ dictGet (pyDict geoDs1.extras) "geographical_coverage" "" ≠ ""
  ∧ ("- **Raeumliche Abdeckung**: " ++ dictGet (pyDict geoDs1.extras) "geographical_coverage" "")
      ∈ berlin_analyze_datasets_lines analyzeScenarioParams 2 [geoDs1, geoDs2] :=
  ⟨by decide, by decide,
   analyze_geo_per_dataset analyzeScenarioParams 2 [geoDs1, geoDs2] geoDs1
     (by decide) (by decide)⟩

/-- The flattened dataset blocks of a non-empty search result end with the
blank separator line. -/
theorem flatMap_summary_getLast (datasets : List Dataset) (h : datasets ≠ []) :
    (datasets.flatMap (fun ds => [format_dataset_summary ds, ""])).getLast? = some "" := by
  induction datasets with
  | nil => exact absurd rfl h
  | cons d rest ih =>
    rw [List.flatMap_cons, List.getLast?_append]
    cases rest with
    | nil => rfl
    | cons d2 r2 => rw [ih (by simp)]; rfl

/-- The pagination trailer line is never the empty string. -/
theorem trailer_ne_empty (m : Nat) :
    ("*→ Weitere Ergebnisse mit offset=" ++ toString m ++ "*") ≠ "" := by
  intro h
  have hl := congrArg String.length h
  rw [String.length_append, String.length_append] at hl
  have h1 : 0 < ("*→ Weitere Ergebnisse mit offset=" : String).length := by decide
  have h0 : ("" : String).length = 0 := rfl
  rw [h0] at hl
  omega

/-- C9: the pagination trailer is the last output line exactly when the total
count exceeds offset plus the number of returned results, and it names the
next offset `offset + returned-count`; in the spec's scenario (query
`Einwohner`, `rows=3`, offset 0, catalog count 120 with 3 results) the header
states 120 with the query, the body has exactly 3 dataset blocks, and the
trailer suggests `offset=3`. -/
theorem search_pagination_spec (params : SearchDatasetsInput) (total : Nat)
    (datasets : List Dataset) (h : datasets ≠ []) :
    ((berlin_search_datasets_lines params total datasets).getLast?
        = some ("*→ Weitere Ergebnisse mit offset="
                  ++ toString (params.offset + datasets.length) ++ "*")
      ↔ total > params.offset + datasets.length)
  ∧ searchScenarioLines.head?
        = some "## Suchergebnis: 120 Datensaetze fuer \x27Einwohner\x27"
  ∧ searchScenarioLines.countP isDatasetBlockStart = 3
  ∧ searchScenarioLines.getLast? = some "*→ Weitere Ergebnisse mit offset=3*" := by
  refine ⟨?_, by decide, by decide, by decide⟩
  unfold berlin_search_datasets_lines
  by_cases hc : total > params.offset + datasets.length
  · rw [if_pos hc, List.getLast?_append]
    simp [hc]
  · rw [if_neg hc, List.append_nil, List.getLast?_append,
        flatMap_summary_getLast datasets h]
    constructor
    · intro hEq
      rw [show (Option.or (some "")
            (List.getLast? ["## Suchergebnis: " ++ toString total ++ " Datensaetze fuer \x27"
                ++ params.query ++ "\x27",
              "Zeige " ++ toString datasets.length ++ " von " ++ toString total
                ++ " (Offset: " ++ toString params.offset ++ ")\n"])) = some "" from rfl] at hEq
      exact absurd (Option.some.inj hEq).symm
        (trailer_ne_empty (params.offset + datasets.length))
    · intro hcond
      exact absurd hcond hc

/-- Witness for C9 at the spec's concrete scenario. -/
theorem search_pagination_spec_witness :
    (([dsE "e1", dsE "e2", dsE "e3"] : List Dataset) ≠ [])
  ∧ searchScenarioLines.countP isDatasetBlockStart = 3 :=
  ⟨by decide,
   (search_pagination_spec searchScenarioInput 120 [dsE "e1", dsE "e2", dsE "e3"]
      (by decide)).2.2.1⟩

end BerlinMcp
